import Mathlib

/-!
Shallow embedding of the Transcode Job Orchestrator of `src/core/ffmpeg_manager.py`
(class `FFmpegManager` plus the dataclasses `EncodeSettings` and `GifSettings`).

Modelling conventions:
* Python `Optional[T]` becomes `Option T`; Python truthiness of optional values
  (`if settings.width:`) is modelled by explicit `truthy…` helpers in which both
  `None` and a zero / empty value count as false, mirroring Python semantics.
* Integer-valued numeric settings (width, height, fps of a GIF job, CRF) are
  modelled as `Nat`/`Int`; real-valued times and durations are modelled as `ℚ`.
* Command lines are lists of tokens (`Arg`); a token is either a literal string,
  an integer rendered with `str()`, a rational rendered with `str()`, or a
  rational rendered with `_format_time` (HH:MM:SS.mmm).  Strings that the source
  assembles verbatim (filter graphs) are modelled as real `String`s.
* The process-level behaviour of the runner methods is modelled by explicit
  state passing over `MgrState` together with an environment record describing
  the externally determined outcomes (probe result, spawn success, exit code,
  diagnostic lines).  Emitted callbacks are collected in an event list.
-/

namespace FGK

/-- Python truthiness of an optional integer: `None` and `0` are falsy. -/
def truthyN : Option Nat → Bool
  | some n => n ≠ 0
  | none => false

/-- Python truthiness of an optional rational: `None` and `0.0` are falsy. -/
def truthyQ : Option ℚ → Bool
  | some q => q ≠ 0
  | none => false

/-- Python truthiness of an optional string: `None` and `""` are falsy. -/
def truthyS : Option String → Bool
  | some s => s ≠ ""
  | none => false

/-- The `EncodeSettings` dataclass (ffmpeg_manager.py lines 41-61).  A plain
record of fields; the dataclass performs no validation of any kind. -/
structure EncodeSettings where
  input_file : String
  output_file : String
  output_format : String
  video_codec : String
  audio_codec : String
  width : Option Nat
  height : Option Nat
  fps : Option ℚ
  crf : Option Int
  preset : Option String
  bitrate : Option String
  start_time : Option ℚ
  end_time : Option ℚ
  hwaccel : Option String
  audio_bitrate : Option String

/-- The generated `__init__` of the `EncodeSettings` dataclass: it stores every
argument unchecked, exactly as given. -/
def mkEncodeSettings (input_file output_file output_format video_codec audio_codec : String)
    (width height : Option Nat) (fps : Option ℚ) (crf : Option Int)
    (preset bitrate : Option String) (start_time end_time : Option ℚ)
    (hwaccel audio_bitrate : Option String) : EncodeSettings :=
  ⟨input_file, output_file, output_format, video_codec, audio_codec, width, height,
   fps, crf, preset, bitrate, start_time, end_time, hwaccel, audio_bitrate⟩

/-- The `GifSettings` dataclass (ffmpeg_manager.py lines 64-81). -/
structure GifSettings where
  input_file : String
  output_file : String
  width : Option Nat
  height : Option Nat
  fps : Option Nat
  start_time : Option ℚ
  duration : Option ℚ
  quality : String
  use_advanced_mode : Bool
  enable_hardware_accel : Bool
  hardware_accel_type : String
  scaling_algorithm : String
  dither_mode : String

/-- One token of an engine command line.  `str` is a literal string token,
`int` an integer rendered by Python `str()`, `num` a float rendered by `str()`,
and `hms` a float rendered by `_format_time` as `HH:MM:SS.mmm`. -/
inductive Arg
  | str (t : String)
  | int (n : Int)
  | num (x : ℚ)
  | hms (x : ℚ)
deriving DecidableEq

/-- The scale video-filter template `scale=A:B:flags=ALG` used by every GIF
builder in the source (f-strings at lines 597-601, 820-827, 923-935). -/
def scaleExpr (a b alg : String) : String :=
  "scale=" ++ a ++ ":" ++ b ++ ":flags=" ++ alg

/-- Palette color count of the single-pass quality map, `quality_settings`
dict at lines 574-578 with `.get(..., medium)` fallback at line 580. -/
def gifQualityColors (q : String) : String :=
  if q = "low" then "64"
  else if q = "medium" then "128"
  else if q = "high" then "256"
  else "128"

/-- Dither mode of the single-pass quality map (lines 574-580). -/
def gifQualityDither (q : String) : String :=
  if q = "low" then "none"
  else if q = "medium" then "floyd_steinberg"
  else if q = "high" then "floyd_steinberg"
  else "floyd_steinberg"

/-- Scale entry of the `filters` list in `create_gif` (lines 596-601).  The
single-pass path hardcodes `flags=lanczos`; the `scaling_algorithm` field is
not consulted.  Note the Python truthiness ladder: a width of `0` is falsy. -/
def gifScaleFilter (st : GifSettings) : List String :=
  if truthyN st.width && truthyN st.height then
    [scaleExpr (Nat.repr (st.width.getD 0)) (Nat.repr (st.height.getD 0)) "lanczos"]
  else if truthyN st.width then
    [scaleExpr (Nat.repr (st.width.getD 0)) "-1" "lanczos"]
  else if truthyN st.height then
    [scaleExpr "-1" (Nat.repr (st.height.getD 0)) "lanczos"]
  else []

/-- The full `filters` list of `create_gif` (lines 593-605): optional scale
entry followed by an optional fps entry. -/
def gifFilters (st : GifSettings) : List String :=
  gifScaleFilter st ++ (if truthyN st.fps then ["fps=" ++ Nat.repr (st.fps.getD 0)] else [])

/-- The `use_filter` local of `create_gif` (line 609): palette application
parameterised solely by the quality tier, never by `dither_mode`. -/
def gifUseFilter (st : GifSettings) : String :=
  "paletteuse=dither=" ++ gifQualityDither st.quality

/-- The `filter_complex` string of `create_gif` (lines 611-618): when filters
are present they feed a named pad `[v]` which both palette stages consume;
otherwise the palette stages attach directly to `[0:v]`. -/
def gifFilterComplex (st : GifSettings) : String :=
  let paletteF := "palettegen=max_colors=" ++ gifQualityColors st.quality
  if gifFilters st ≠ [] then
    "[0:v]" ++ String.intercalate "," (gifFilters st) ++ "[v];[v]" ++ paletteF
      ++ "[p];[v][p]" ++ gifUseFilter st
  else
    "[0:v]" ++ paletteF ++ "[p];[0:v][p]" ++ gifUseFilter st

/-- Full command vector of `create_gif` (lines 582-624). -/
def createGifCmd (path : String) (st : GifSettings) : List Arg :=
  [Arg.str path, Arg.str "-i", Arg.str st.input_file]
  ++ (match st.start_time with | some t0 => [Arg.str "-ss", Arg.num t0] | none => [])
  ++ (match st.duration with | some d => [Arg.str "-t", Arg.num d] | none => [])
  ++ [Arg.str "-filter_complex", Arg.str (gifFilterComplex st)]
  ++ [Arg.str "-y", Arg.str st.output_file]

/-! ### Progress parser (`_monitor_progress`, lines 1066-1160) -/

/-- Numeric value of a decimal digit character. -/
def digitVal (c : Char) : Nat := c.toNat - '0'.toNat

/-- Attempt to match the regex `time=(\d\d):(\d\d):(\d\d)\.(\d\d)` at the head
of the character list, returning the four captured two-digit groups. -/
def matchTimeAt : List Char → Option (Nat × Nat × Nat × Nat)
  | 't' :: 'i' :: 'm' :: 'e' :: '=' :: h1 :: h2 :: ':' :: m1 :: m2 :: ':'
      :: s1 :: s2 :: '.' :: c1 :: c2 :: _ =>
    if h1.isDigit && h2.isDigit && m1.isDigit && m2.isDigit
        && s1.isDigit && s2.isDigit && c1.isDigit && c2.isDigit then
      some (10 * digitVal h1 + digitVal h2, 10 * digitVal m1 + digitVal m2,
            10 * digitVal s1 + digitVal s2, 10 * digitVal c1 + digitVal c2)
    else none
  | _ => none

/-- Leftmost match of the time pattern, as `re.search` finds it. -/
def timeSearchChars : List Char → Option (Nat × Nat × Nat × Nat)
  | [] => none
  | c :: rest =>
    match matchTimeAt (c :: rest) with
    | some r => some r
    | none => timeSearchChars rest

/-- `time_pattern.search(line)` of the monitor loop (line 1085, 1099). -/
def timeSearch (line : String) : Option (Nat × Nat × Nat × Nat) :=
  timeSearchChars line.data

/-- Whether `needle` is an initial segment of `hay`. -/
def leadMatches : List Char → List Char → Bool
  | [], _ => true
  | _ :: _, [] => false
  | a :: as, b :: bs => a == b && leadMatches as bs

/-- Python substring containment `needle in hay`. -/
def containsSub (needle : List Char) : List Char → Bool
  | [] => leadMatches needle []
  | c :: rest => leadMatches needle (c :: rest) || containsSub needle rest

/-- The error heuristic of line 1148:
`'error' in line.lower() or 'failed' in line.lower()`. -/
def errHeuristic (line : String) : Bool :=
  containsSub "error".data (line.data.map Char.toLower)
    || containsSub "failed".data (line.data.map Char.toLower)

/-- Conversion of the four captured groups to seconds (lines 1106-1111):
`H*3600 + M*60 + S + CC/100`. -/
def elapsedSeconds (h m s cc : Nat) : ℚ :=
  (h : ℚ) * 3600 + (m : ℚ) * 60 + (s : ℚ) + (cc : ℚ) / 100

/-- Derived fraction-complete of line 1112: `min(current_time / total, 1.0)`. -/
def progressFraction (total elapsed : ℚ) : ℚ :=
  min (elapsed / total) 1

/-- Python truthiness of the `total_duration` argument (`if time_match and
total_duration:` at line 1104): `None` and `0.0` are falsy. -/
def totalTruthy : Option ℚ → Bool
  | some q => q ≠ 0
  | none => false

/-- Classification of one diagnostic line by the monitor loop body
(lines 1099-1150). -/
inductive LineClass
  | progress (p : ℚ) (h m s cc : Nat)
  | errSignal
  | silent
deriving DecidableEq

/-- The branch structure of the monitor loop body: the progress branch fires
when a time token is present AND the total duration is truthy; only otherwise
does the `elif` error heuristic run (lines 1104-1150). -/
def lineClass (total : Option ℚ) (line : String) : LineClass :=
  match timeSearch line with
  | some (h, m, s, cc) =>
    if totalTruthy total then
      LineClass.progress (progressFraction (total.getD 0) (elapsedSeconds h m s cc)) h m s cc
    else if errHeuristic line then LineClass.errSignal
    else LineClass.silent
  | none =>
    if errHeuristic line then LineClass.errSignal
    else LineClass.silent

/-! ### Command builders for direct transcode -/

/-- Bitrate branch shared by the quality settings: `['-b:v', settings.bitrate]`
guarded by Python truthiness of the string. -/
def bitrateArgs (st : EncodeSettings) : List Arg :=
  match st.bitrate with
  | some b => if b ≠ "" then [Arg.str "-b:v", Arg.str b] else []
  | none => []

/-- Quality flags of `encode_video` (lines 468-472): `-crf` whenever CRF is
not `None`, else `-b:v` when the bitrate is truthy. -/
def encodeQualityArgs (st : EncodeSettings) : List Arg :=
  match st.crf with
  | some c => [Arg.str "-crf", Arg.int c]
  | none => bitrateArgs st

/-- Quality flags of `encode_video_advanced` (lines 1226-1229): here `-crf`
additionally requires `settings.crf > 0`. -/
def advQualityArgs (st : EncodeSettings) : List Arg :=
  match st.crf with
  | some c => if 0 < c then [Arg.str "-crf", Arg.int c] else bitrateArgs st
  | none => bitrateArgs st

/-- Full command vector of `encode_video` (lines 452-490).  The source appends
the `-y`/output pair twice (duplicated lines 485-490); kept as written. -/
def encodeVideoCmd (path : String) (st : EncodeSettings) : List Arg :=
  [Arg.str path, Arg.str "-i", Arg.str st.input_file]
  ++ (if st.video_codec ≠ "copy" then
        [Arg.str "-c:v", Arg.str st.video_codec]
        ++ (if truthyN st.width && truthyN st.height then
              [Arg.str "-s",
               Arg.str (Nat.repr (st.width.getD 0) ++ "x" ++ Nat.repr (st.height.getD 0))]
            else [])
        ++ (if truthyQ st.fps then [Arg.str "-r", Arg.num (st.fps.getD 0)] else [])
        ++ encodeQualityArgs st
        ++ (match st.preset with
            | some p =>
              if p ≠ "" && (st.video_codec = "libx264" || st.video_codec = "libx265") then
                [Arg.str "-preset", Arg.str p]
              else []
            | none => [])
      else [Arg.str "-c:v", Arg.str "copy"])
  ++ [Arg.str "-c:a", Arg.str st.audio_codec]
  ++ [Arg.str "-y", Arg.str st.output_file, Arg.str "-y", Arg.str st.output_file]

/-- Codecs accepting `-preset` in `encode_video_advanced` (lines 1233-1237). -/
def presetCodecs : List String :=
  ["libx264", "libx265", "h264_nvenc", "h264_qsv", "h264_amf",
   "hevc_nvenc", "hevc_qsv", "hevc_amf"]

/-- Everything `encode_video_advanced` emits before the video codec flag
(lines 1196-1218): program path, `-y`, optional `-hwaccel`, optional input-side
trims `-ss`/`-to`, and the input file. -/
def encodeAdvPre (path : String) (st : EncodeSettings) : List Arg :=
  [Arg.str path, Arg.str "-y"]
  ++ (match st.hwaccel with
      | some hw => if hw ≠ "" then [Arg.str "-hwaccel", Arg.str hw] else []
      | none => [])
  ++ (match st.start_time with | some t0 => [Arg.str "-ss", Arg.num t0] | none => [])
  ++ (match st.end_time with | some t1 => [Arg.str "-to", Arg.num t1] | none => [])
  ++ [Arg.str "-i", Arg.str st.input_file]

/-- Default audio bitrate/quality flags by codec (lines 1258-1267). -/
def defaultAudioArgs (st : EncodeSettings) : List Arg :=
  if st.audio_codec = "aac" then [Arg.str "-b:a", Arg.str "128k"]
  else if st.audio_codec = "mp3" || st.audio_codec = "libmp3lame" then
    [Arg.str "-b:a", Arg.str "192k"]
  else if st.audio_codec = "libvorbis" then [Arg.str "-q:a", Arg.str "5"]
  else if st.audio_codec = "libopus" then [Arg.str "-b:a", Arg.str "96k"]
  else []

/-- Audio flags of `encode_video_advanced` (lines 1250-1267). -/
def audioArgs (st : EncodeSettings) : List Arg :=
  if st.audio_codec = "copy" then [Arg.str "-c:a", Arg.str "copy"]
  else
    [Arg.str "-c:a", Arg.str st.audio_codec]
    ++ (match st.audio_bitrate with
        | some ab => if ab ≠ "" then [Arg.str "-b:a", Arg.str ab] else defaultAudioArgs st
        | none => defaultAudioArgs st)

/-- Everything `encode_video_advanced` emits after the quality flags
(lines 1232-1277): optional preset, fps, resolution, audio flags, pixel-format
normalisation, and the output file last. -/
def encodeAdvPost (st : EncodeSettings) : List Arg :=
  (match st.preset with
   | some p => if p ≠ "" && st.video_codec ∈ presetCodecs then [Arg.str "-preset", Arg.str p]
               else []
   | none => [])
  ++ (if truthyQ st.fps then [Arg.str "-r", Arg.num (st.fps.getD 0)] else [])
  ++ (if truthyN st.width && truthyN st.height then
        [Arg.str "-s",
         Arg.str (Nat.repr (st.width.getD 0) ++ "x" ++ Nat.repr (st.height.getD 0))]
      else [])
  ++ audioArgs st
  ++ (if st.video_codec ∈ ["libx264", "h264_nvenc", "h264_qsv", "h264_amf"] then
        [Arg.str "-pix_fmt", Arg.str "yuv420p"]
      else if st.video_codec ∈ ["libx265", "hevc_nvenc", "hevc_qsv", "hevc_amf"] then
        [Arg.str "-pix_fmt", Arg.str "yuv420p"]
      else [])
  ++ [Arg.str st.output_file]

/-- Full command vector of `encode_video_advanced` (lines 1195-1277), in the
fixed order: global/input-side flags, `-c:v`, quality, remaining output flags. -/
def encodeAdvCmd (path : String) (st : EncodeSettings) : List Arg :=
  encodeAdvPre path st ++ [Arg.str "-c:v", Arg.str st.video_codec]
    ++ advQualityArgs st ++ encodeAdvPost st

/-! ### Command builders for two-stage GIF -/

/-- Hardware-acceleration preference order of `get_optimal_hardware_accel`
(lines 178-192): first supported backend of the fixed list wins. -/
def optimalHwaccel (supported : List String) : Option String :=
  ["cuda", "qsv", "videotoolbox", "vaapi", "d3d11va"].find? (fun h => h ∈ supported)

/-- Backend selection of `_get_hardware_accel_for_settings` (lines 988-1002). -/
def getHardwareAccelForSettings (supported : List String) (st : GifSettings) :
    Option String :=
  if !st.enable_hardware_accel then none
  else if st.hardware_accel_type = "auto" then optimalHwaccel supported
  else if st.hardware_accel_type = "none" then none
  else if st.hardware_accel_type ∈ supported then some st.hardware_accel_type
  else none

/-- Palette color count of `_get_palette_colors_for_quality` (lines 1004-1013);
the dict lookup falls back to 128. -/
def paletteColorsForQuality (q : String) : Nat :=
  if q = "low" then 64
  else if q = "medium" then 128
  else if q = "high" then 256
  else 128

/-- Trim flags of `_create_palette` (lines 796-806, duplicated verbatim in
`_create_gif_with_palette` lines 897-906): `-ss` whenever a start time is set;
`-t` from the explicit duration, else — when a start time is set — from the
probed source duration minus the start time, when that probe result is truthy. -/
def paletteTrimArgs (probed : Option ℚ) (st : GifSettings) : List Arg :=
  (match st.start_time with | some t0 => [Arg.str "-ss", Arg.hms t0] | none => [])
  ++ (match st.duration with
      | some d => [Arg.str "-t", Arg.num d]
      | none =>
        match st.start_time with
        | some t0 =>
          (match probed with
           | some vd => if vd ≠ 0 then [Arg.str "-t", Arg.num (vd - t0)] else []
           | none => [])
        | none => [])

/-- The `filters` list of `_create_palette` (lines 811-834): optional fps,
optional scale using the configured `scaling_algorithm`, mandatory
`format=rgb24`, then palette generation. -/
def paletteFilters (st : GifSettings) : List String :=
  (if truthyN st.fps then ["fps=" ++ Nat.repr (st.fps.getD 0)] else [])
  ++ (if truthyN st.width && truthyN st.height then
        [scaleExpr (Nat.repr (st.width.getD 0)) (Nat.repr (st.height.getD 0))
          st.scaling_algorithm]
      else if truthyN st.width then
        [scaleExpr (Nat.repr (st.width.getD 0)) "-1" st.scaling_algorithm]
      else if truthyN st.height then
        [scaleExpr "-1" (Nat.repr (st.height.getD 0)) st.scaling_algorithm]
      else [])
  ++ ["format=rgb24"]
  ++ ["palettegen=max_colors=" ++ Nat.repr (paletteColorsForQuality st.quality)]

/-- Full command vector of `_create_palette` (lines 786-842). -/
def createPaletteCmd (path : String) (hw : Option String) (probed : Option ℚ)
    (st : GifSettings) (paletteFile : String) : List Arg :=
  [Arg.str path]
  ++ (match hw with | some h => [Arg.str "-hwaccel", Arg.str h] | none => [])
  ++ paletteTrimArgs probed st
  ++ [Arg.str "-i", Arg.str st.input_file]
  ++ (if paletteFilters st = [] then []
      else [Arg.str "-vf", Arg.str (String.intercalate "," (paletteFilters st))])
  ++ [Arg.str "-y", Arg.str paletteFile]

/-- The filter complex of `_create_gif_with_palette` (lines 912-948): a head
chain built from `[0:v]` with optional fps and scale (using the configured
`scaling_algorithm`), labelled `[v]`, then palette application with the
configured `dither_mode`. -/
def stage2FilterComplex (st : GifSettings) : String :=
  let base := if truthyN st.fps then "[0:v]fps=" ++ Nat.repr (st.fps.getD 0) else "[0:v]"
  let scaled :=
    if truthyN st.width && truthyN st.height then
      (if base ≠ "[0:v]" then
        base ++ ","
          ++ scaleExpr (Nat.repr (st.width.getD 0)) (Nat.repr (st.height.getD 0))
              st.scaling_algorithm
      else
        "[0:v]" ++ scaleExpr (Nat.repr (st.width.getD 0)) (Nat.repr (st.height.getD 0))
            st.scaling_algorithm)
    else if truthyN st.width then
      (if base ≠ "[0:v]" then
        base ++ "," ++ scaleExpr (Nat.repr (st.width.getD 0)) "-1" st.scaling_algorithm
      else
        "[0:v]" ++ scaleExpr (Nat.repr (st.width.getD 0)) "-1" st.scaling_algorithm)
    else if truthyN st.height then
      (if base ≠ "[0:v]" then
        base ++ "," ++ scaleExpr "-1" (Nat.repr (st.height.getD 0)) st.scaling_algorithm
      else
        "[0:v]" ++ scaleExpr "-1" (Nat.repr (st.height.getD 0)) st.scaling_algorithm)
    else base
  scaled ++ "[v];[v][1:v]paletteuse=dither=" ++ st.dither_mode

/-- Full command vector of `_create_gif_with_palette` (lines 889-952). -/
def createGifPaletteCmd (path : String) (hw : Option String) (probed : Option ℚ)
    (st : GifSettings) (paletteFile : String) : List Arg :=
  [Arg.str path]
  ++ (match hw with | some h => [Arg.str "-hwaccel", Arg.str h] | none => [])
  ++ paletteTrimArgs probed st
  ++ [Arg.str "-i", Arg.str st.input_file, Arg.str "-i", Arg.str paletteFile]
  ++ [Arg.str "-filter_complex", Arg.str (stage2FilterComplex st)]
  ++ [Arg.str "-y", Arg.str st.output_file]

/-! ### Job runner state, events and environment -/

/-- Shared mutable state of the `FFmpegManager` instance: the located engine
path (`ffmpeg_path`), the probed hardware backends (`supported_hwaccels`), the
busy flag (`is_processing`) and the live process handle (`current_process`). -/
structure MgrState where
  ffmpegPath : Option String
  supportedHwaccels : List String
  isProcessing : Bool
  currentProcess : Option Nat

/-- Status messages delivered through the `status_callback`, one constructor
per distinct message site of the source. -/
inductive StatusMsg
  | unavailable
  | busyConflict
  | encodeStart
  | encodeDone
  | encodeFail
  | gifStart
  | gifDone
  | gifFail
  | stepPalette
  | stepGif
  | paletteFailed
  | gifGenFailed
  | advancedDone
  | errorLine (line : String)
  | progressDetail (p : ℚ) (h m s cc : Nat) (line : String)
  | exceptionMsg (msg : String)
  | monitorError (msg : String)

/-- Messages delivered through the `log_callback`. -/
inductive LogMsg
  | rawLine (line : String)
  | cmdEcho (cmd : List Arg)
  | filterNote (s : String)
  | hwaccelNote (s : String)
  | stageError (msg : String)
  | exceptionNote (msg : String)

/-- Externally observable callbacks and process spawns of one job run, in
emission order. -/
inductive Event
  | status (m : StatusMsg)
  | progressCb (p : ℚ)
  | log (m : LogMsg)
  | spawn (cmd : List Arg)

/-- Externally determined outcome of one engine process: the probed source
duration, whether `Popen` raises, the exception text, the exit code, the
diagnostic lines the monitor reads, and an optional monitor-loop read error
occurring after a given number of lines. -/
structure ProcEnv where
  probed : Option ℚ
  spawnRaises : Bool
  exnMsg : String
  exitCode : Int
  lines : List String
  monitorCut : Option (Nat × String)

/-- Events of one consumed diagnostic line (monitor loop body, lines
1090-1150): empty lines are skipped, others are logged raw and then classified;
the progress branch fires the progress callback and a detailed status, the
error branch a status carrying the stripped line. -/
def lineEvents (total : Option ℚ) (line : String) : List Event :=
  if line = "" then []
  else
    Event.log (LogMsg.rawLine line.trim)
    :: (match lineClass total line with
        | LineClass.progress p h m s cc =>
          [Event.progressCb p, Event.status (StatusMsg.progressDetail p h m s cc line)]
        | LineClass.errSignal => [Event.status (StatusMsg.errorLine line.trim)]
        | LineClass.silent => [])

/-- Events of a list of consumed lines, in order. -/
def eventsOfLines (total : Option ℚ) : List String → List Event
  | [] => []
  | l :: rest => lineEvents total l ++ eventsOfLines total rest

/-- Events of the monitor thread: all lines in order; a read error reports a
monitor-error status and ends the thread early (lines 1152-1155). -/
def monitorEvents (total : Option ℚ) (lines : List String)
    (cut : Option (Nat × String)) : List Event :=
  match cut with
  | none => eventsOfLines total lines
  | some (n, msg) =>
    eventsOfLines total (lines.take n) ++ [Event.status (StatusMsg.monitorError msg)]

/-- The `finally` cleanup shared by every job entry point: the busy flag and
process handle are cleared unconditionally. -/
def clearBusy (s : MgrState) : MgrState :=
  { s with isProcessing := false, currentProcess := none }

/-! ### Job entry points -/

/-- `encode_video` (lines 420-539): availability and busy guards, command
construction, spawn, monitoring, exit-code result; `finally` clears the busy
state on every accepted path, including the exception path. -/
def encodeVideo (pe : ProcEnv) (st : EncodeSettings) (s : MgrState) :
    Bool × MgrState × List Event :=
  match s.ffmpegPath with
  | none => (false, s, [Event.status StatusMsg.unavailable])
  | some path =>
    if s.isProcessing then (false, s, [Event.status StatusMsg.busyConflict])
    else
      let cmd := encodeVideoCmd path st
      let ev0 : List Event :=
        [Event.status StatusMsg.encodeStart, Event.log (LogMsg.cmdEcho cmd)]
      if pe.spawnRaises then
        (false, clearBusy s, ev0 ++ [Event.status (StatusMsg.exceptionMsg pe.exnMsg)])
      else
        let evs := ev0 ++ [Event.spawn cmd] ++ monitorEvents pe.probed pe.lines pe.monitorCut
        if pe.exitCode = 0 then
          (true, clearBusy s, evs ++ [Event.status StatusMsg.encodeDone])
        else
          (false, clearBusy s, evs ++ [Event.status StatusMsg.encodeFail])

/-- `create_gif` (lines 541-677).  The progress total is the explicit duration
when truthy, else the probed source duration; the start status is emitted twice
exactly as in the source (lines 626-635). -/
def createGif (pe : ProcEnv) (st : GifSettings) (s : MgrState) :
    Bool × MgrState × List Event :=
  match s.ffmpegPath with
  | none => (false, s, [Event.status StatusMsg.unavailable])
  | some path =>
    if s.isProcessing then (false, s, [Event.status StatusMsg.busyConflict])
    else
      let cmd := createGifCmd path st
      let ev0 : List Event :=
        [Event.status StatusMsg.gifStart, Event.log (LogMsg.cmdEcho cmd),
         Event.log (LogMsg.filterNote (gifFilterComplex st)),
         Event.status StatusMsg.gifStart]
      if pe.spawnRaises then
        (false, clearBusy s, ev0 ++ [Event.status (StatusMsg.exceptionMsg pe.exnMsg)])
      else
        let total := if truthyQ st.duration then st.duration else pe.probed
        let evs := ev0 ++ [Event.spawn cmd] ++ monitorEvents total pe.lines pe.monitorCut
        if pe.exitCode = 0 then
          (true, clearBusy s, evs ++ [Event.status StatusMsg.gifDone])
        else
          (false, clearBusy s, evs ++ [Event.status StatusMsg.gifFail])

/-- `encode_video_advanced` (lines 1162-1335).  The progress total is
`end − start` when both trims are set, else the probed duration, reduced by the
start time when the probe is truthy (lines 1287-1293). -/
def encodeVideoAdvanced (pe : ProcEnv) (st : EncodeSettings) (s : MgrState) :
    Bool × MgrState × List Event :=
  match s.ffmpegPath with
  | none => (false, s, [Event.status StatusMsg.unavailable])
  | some path =>
    if s.isProcessing then (false, s, [Event.status StatusMsg.busyConflict])
    else
      let cmd := encodeAdvCmd path st
      let hwEv : List Event :=
        match st.hwaccel with
        | some hw => if hw ≠ "" then [Event.log (LogMsg.hwaccelNote hw)] else []
        | none => []
      let ev0 := hwEv ++ [Event.status StatusMsg.encodeStart, Event.log (LogMsg.cmdEcho cmd)]
      let total : Option ℚ :=
        match st.start_time, st.end_time with
        | some a, some b => some (b - a)
        | _, _ =>
          match st.start_time, pe.probed with
          | some a, some dv => if dv ≠ 0 then some (dv - a) else some dv
          | _, _ => pe.probed
      if pe.spawnRaises then
        (false, clearBusy s,
         ev0 ++ [Event.status (StatusMsg.exceptionMsg pe.exnMsg),
                 Event.log (LogMsg.exceptionNote pe.exnMsg)])
      else
        let evs := ev0 ++ [Event.spawn cmd] ++ monitorEvents total pe.lines pe.monitorCut
        if pe.exitCode = 0 then
          (true, clearBusy s, evs ++ [Event.status StatusMsg.encodeDone])
        else
          (false, clearBusy s, evs ++ [Event.status StatusMsg.encodeFail])

/-- `_create_palette` (lines 774-875): builds the stage-1 command, spawns it
and reports its exit status; any exception yields a stage-error log and
`False`.  Progress events carry the raw (un-remapped) fractions. -/
def createPalette (path : String) (supported : List String) (pe : ProcEnv)
    (st : GifSettings) (paletteFile : String) : Bool × List Event :=
  let hw := getHardwareAccelForSettings supported st
  let cmd := createPaletteCmd path hw pe.probed st paletteFile
  let hwEv : List Event :=
    match hw with | some h => [Event.log (LogMsg.hwaccelNote h)] | none => []
  let ev0 := hwEv ++ [Event.log (LogMsg.cmdEcho cmd)]
  if pe.spawnRaises then (false, ev0 ++ [Event.log (LogMsg.stageError pe.exnMsg)])
  else
    let total := if truthyQ st.duration then st.duration else pe.probed
    (pe.exitCode = 0, ev0 ++ [Event.spawn cmd] ++ monitorEvents total pe.lines pe.monitorCut)

/-- `_create_gif_with_palette` (lines 877-986), the stage-2 analogue. -/
def createGifWithPalette (path : String) (supported : List String) (pe : ProcEnv)
    (st : GifSettings) (paletteFile : String) : Bool × List Event :=
  let hw := getHardwareAccelForSettings supported st
  let cmd := createGifPaletteCmd path hw pe.probed st paletteFile
  let hwEv : List Event :=
    match hw with | some h => [Event.log (LogMsg.hwaccelNote h)] | none => []
  let ev0 := hwEv ++ [Event.log (LogMsg.cmdEcho cmd),
                      Event.log (LogMsg.filterNote (stage2FilterComplex st))]
  if pe.spawnRaises then (false, ev0 ++ [Event.log (LogMsg.stageError pe.exnMsg)])
  else
    let total := if truthyQ st.duration then st.duration else pe.probed
    (pe.exitCode = 0, ev0 ++ [Event.spawn cmd] ++ monitorEvents total pe.lines pe.monitorCut)

/-- The stage-1 progress wrapper of `create_gif_advanced` (line 726):
`lambda p: progress_callback(p * 0.5)`. -/
def stage1Remap (p : ℚ) : ℚ := p * (1 / 2)

/-- The stage-2 progress wrapper of `create_gif_advanced` (line 743):
`lambda p: progress_callback(0.5 + p * 0.5)`. -/
def stage2Remap (p : ℚ) : ℚ := 1 / 2 + p * (1 / 2)

/-- Apply a progress remapping to the progress events of a stage, leaving
status/log/spawn events untouched. -/
def remapProgress (f : ℚ → ℚ) : Event → Event
  | Event.progressCb p => Event.progressCb (f p)
  | e => e

/-- Externally determined outcomes of a two-stage GIF run: an optional early
exception (temporary-file creation), and one process outcome per stage. -/
structure AdvEnv where
  raiseEarly : Option String
  stage1 : ProcEnv
  stage2 : ProcEnv
  paletteFile : String

/-- `create_gif_advanced` (lines 679-772): guards, stage 1 with progress
remapped into the lower half, then — only on stage-1 success — stage 2 with
progress remapped into the upper half; the busy state is cleared on every
accepted path by the `finally` block. -/
def createGifAdvanced (env : AdvEnv) (st : GifSettings) (s : MgrState) :
    Bool × MgrState × List Event :=
  match s.ffmpegPath with
  | none => (false, s, [Event.status StatusMsg.unavailable])
  | some path =>
    if s.isProcessing then (false, s, [Event.status StatusMsg.busyConflict])
    else
      match env.raiseEarly with
      | some msg => (false, clearBusy s, [Event.status (StatusMsg.exceptionMsg msg)])
      | none =>
        let r1 := createPalette path s.supportedHwaccels env.stage1 st env.paletteFile
        let ev1 := r1.2.map (remapProgress stage1Remap)
        if r1.1 then
          let r2 := createGifWithPalette path s.supportedHwaccels env.stage2 st env.paletteFile
          let ev2 := r2.2.map (remapProgress stage2Remap)
          if r2.1 then
            (true, clearBusy s,
             [Event.status StatusMsg.stepPalette] ++ ev1
               ++ [Event.status StatusMsg.stepGif] ++ ev2
               ++ [Event.status StatusMsg.advancedDone])
          else
            (false, clearBusy s,
             [Event.status StatusMsg.stepPalette] ++ ev1
               ++ [Event.status StatusMsg.stepGif] ++ ev2
               ++ [Event.status StatusMsg.gifGenFailed])
        else
          (false, clearBusy s,
           [Event.status StatusMsg.stepPalette] ++ ev1
             ++ [Event.status StatusMsg.paletteFailed])

/-- Values passed to the caller's progress callback, in order. -/
def progressValues : List Event → List ℚ
  | [] => []
  | Event.progressCb p :: rest => p :: progressValues rest
  | _ :: rest => progressValues rest

/-! ### Theorems -/

/-- C6: for a single-pass GIF job with width 320, height 240, fps 10 and
quality "low", `create_gif` builds exactly the filter graph
`[0:v]scale=320:240:flags=lanczos,fps=10[v];[v]palettegen=max_colors=64[p];[v][p]paletteuse=dither=none`:
the low tier resolves to 64 colors and dither `none`. -/
theorem gif_singlepass_scenarioB_filter_graph :
    gifFilterComplex
      ⟨"input.mp4", "out.gif", some 320, some 240, some 10, none, none, "low",
       false, true, "auto", "lanczos", "floyd_steinberg"⟩
      = "[0:v]scale=320:240:flags=lanczos,fps=10[v];[v]palettegen=max_colors=64[p];[v][p]paletteuse=dither=none" := by
  decide

/-- C10: the single-pass filter graph of `create_gif` does not depend on the
`scaling_algorithm` and `dither_mode` fields of `GifSettings`; every scale
entry it emits uses `flags=lanczos`, and the dither parameter of the palette
application comes solely from the quality-tier mapping (low maps to `none`,
medium and high to `floyd_steinberg`, with `floyd_steinberg` as fallback). -/
theorem gif_singlepass_ignores_scaling_and_dither_fields :
    (∀ (s : GifSettings) (a₁ d₁ a₂ d₂ : String),
        gifFilterComplex { s with scaling_algorithm := a₁, dither_mode := d₁ } =
        gifFilterComplex { s with scaling_algorithm := a₂, dither_mode := d₂ }) ∧
    (∀ s : GifSettings,
        gifScaleFilter s = [] ∨ ∃ a b, gifScaleFilter s = [scaleExpr a b "lanczos"]) ∧
    (∀ s : GifSettings, ∃ head, gifFilterComplex s = head ++ gifUseFilter s) ∧
    gifQualityDither "low" = "none" ∧
    gifQualityDither "medium" = "floyd_steinberg" ∧
    gifQualityDither "high" = "floyd_steinberg" ∧
    (∀ s : GifSettings, gifUseFilter s = "paletteuse=dither=" ++ gifQualityDither s.quality) := by
  refine ⟨fun s a₁ d₁ a₂ d₂ => rfl, fun s => ?_, fun s => ?_, rfl, rfl, rfl, fun s => rfl⟩
  · unfold gifScaleFilter
    split
    · exact Or.inr ⟨_, _, rfl⟩
    · split
      · exact Or.inr ⟨_, _, rfl⟩
      · split
        · exact Or.inr ⟨_, _, rfl⟩
        · exact Or.inl rfl
  · unfold gifFilterComplex
    split
    · exact ⟨_, rfl⟩
    · exact ⟨_, rfl⟩

/-- C1: every job-start method (`encode_video`, `encode_video_advanced`,
`create_gif`, `create_gif_advanced`) called while the shared busy flag
`is_processing` is already set (the engine being available, as it is whenever
a previously accepted job is still running) returns `False` immediately with
the busy-conflict status as its only emitted event — in particular it spawns
no engine process — and leaves the state untouched. -/
theorem busy_rejects_all_job_starts (pe : ProcEnv) (env : AdvEnv)
    (es : EncodeSettings) (gs : GifSettings) (s : MgrState) (p : String)
    (hp : s.ffmpegPath = some p) (hb : s.isProcessing = true) :
    encodeVideo pe es s = (false, s, [Event.status StatusMsg.busyConflict]) ∧
    encodeVideoAdvanced pe es s = (false, s, [Event.status StatusMsg.busyConflict]) ∧
    createGif pe gs s = (false, s, [Event.status StatusMsg.busyConflict]) ∧
    createGifAdvanced env gs s = (false, s, [Event.status StatusMsg.busyConflict]) ∧
    (∀ c, Event.spawn c ∉ [Event.status StatusMsg.busyConflict]) := by
  refine ⟨?_, ?_, ?_, ?_, ?_⟩
  · simp [encodeVideo, hp, hb]
  · simp [encodeVideoAdvanced, hp, hb]
  · simp [createGif, hp, hb]
  · simp [createGifAdvanced, hp, hb]
  · intro c hc
    simp at hc

/-- C2: for every accepted job (engine available, busy flag clear at entry)
and every outcome — exit code 0, non-zero exit, spawn failure, or an exception
raised before the spawn — each job-start method returns with `is_processing`
false and `current_process` cleared: the `finally` cleanup runs on all paths. -/
theorem busy_flag_cleared_after_accepted_job (pe : ProcEnv) (env : AdvEnv)
    (es : EncodeSettings) (gs : GifSettings) (s : MgrState) (p : String)
    (hp : s.ffmpegPath = some p) (hb : s.isProcessing = false) :
    ((encodeVideo pe es s).2.1.isProcessing = false ∧
      (encodeVideo pe es s).2.1.currentProcess = none) ∧
    ((encodeVideoAdvanced pe es s).2.1.isProcessing = false ∧
      (encodeVideoAdvanced pe es s).2.1.currentProcess = none) ∧
    ((createGif pe gs s).2.1.isProcessing = false ∧
      (createGif pe gs s).2.1.currentProcess = none) ∧
    ((createGifAdvanced env gs s).2.1.isProcessing = false ∧
      (createGifAdvanced env gs s).2.1.currentProcess = none) := by
  refine ⟨⟨?_, ?_⟩, ⟨?_, ?_⟩, ⟨?_, ?_⟩, ⟨?_, ?_⟩⟩ <;>
  · simp only [encodeVideo, encodeVideoAdvanced, createGif, createGifAdvanced,
      hp, hb, Bool.false_eq_true, if_false]
    repeat (first | rfl | split)

/-- Sample transcode job specification used to instantiate the runner
theorems on concrete inputs. -/
def sampleEncode : EncodeSettings :=
  mkEncodeSettings "a.mp4" "out.mp4" "mp4" "libx264" "aac" none none none none
    none none none none none none

/-- Sample GIF job specification used to instantiate the runner theorems. -/
def sampleGif : GifSettings :=
  ⟨"a.mp4", "out.gif", some 320, some 240, some 10, none, none, "low", false,
   true, "auto", "lanczos", "floyd_steinberg"⟩

/-- Process outcome with no probe result, a successful spawn, exit code 0 and
no diagnostic output. -/
def quietProc : ProcEnv := ⟨none, false, "", 0, [], none⟩

/-- Two-stage environment built from two quiet process outcomes. -/
def sampleAdv : AdvEnv := ⟨none, quietProc, quietProc, "pal.png"⟩

/-- Manager state with a located engine and a job already in flight. -/
def busyState : MgrState := ⟨some "ffmpeg", [], true, none⟩

/-- Manager state with a located engine and no job in flight. -/
def idleState : MgrState := ⟨some "ffmpeg", [], false, none⟩

/-- Witness for C1 at a concrete busy state and concrete job specs. -/
theorem busy_rejects_all_job_starts_witness :
    busyState.ffmpegPath = some "ffmpeg" ∧ busyState.isProcessing = true ∧
    (encodeVideo quietProc sampleEncode busyState
        = (false, busyState, [Event.status StatusMsg.busyConflict]) ∧
     encodeVideoAdvanced quietProc sampleEncode busyState
        = (false, busyState, [Event.status StatusMsg.busyConflict]) ∧
     createGif quietProc sampleGif busyState
        = (false, busyState, [Event.status StatusMsg.busyConflict]) ∧
     createGifAdvanced sampleAdv sampleGif busyState
        = (false, busyState, [Event.status StatusMsg.busyConflict]) ∧
     (∀ c, Event.spawn c ∉ [Event.status StatusMsg.busyConflict])) :=
  ⟨rfl, rfl,
   busy_rejects_all_job_starts quietProc sampleAdv sampleEncode sampleGif
     busyState "ffmpeg" rfl rfl⟩

/-- Witness for C2 at a concrete idle state and concrete job specs. -/
theorem busy_flag_cleared_after_accepted_job_witness :
    idleState.ffmpegPath = some "ffmpeg" ∧ idleState.isProcessing = false ∧
    (((encodeVideo quietProc sampleEncode idleState).2.1.isProcessing = false ∧
       (encodeVideo quietProc sampleEncode idleState).2.1.currentProcess = none) ∧
     ((encodeVideoAdvanced quietProc sampleEncode idleState).2.1.isProcessing = false ∧
       (encodeVideoAdvanced quietProc sampleEncode idleState).2.1.currentProcess = none) ∧
     ((createGif quietProc sampleGif idleState).2.1.isProcessing = false ∧
       (createGif quietProc sampleGif idleState).2.1.currentProcess = none) ∧
     ((createGifAdvanced sampleAdv sampleGif idleState).2.1.isProcessing = false ∧
       (createGifAdvanced sampleAdv sampleGif idleState).2.1.currentProcess = none)) :=
  ⟨rfl, rfl,
   busy_flag_cleared_after_accepted_job quietProc sampleAdv sampleEncode sampleGif
     idleState "ffmpeg" rfl rfl⟩

/-- C3 counterexample: the `EncodeSettings` dataclass performs no
construction-time validation — constructing a spec with both a CRF and a
bitrate succeeds and yields a value carrying both, rather than being
rejected. -/
theorem encodeSettings_both_crf_bitrate_constructible :
    (mkEncodeSettings "a.mp4" "out.mp4" "mp4" "libx264" "aac" none none none
        (some 23) none (some "2M") none none none none).crf = some 23 ∧
    (mkEncodeSettings "a.mp4" "out.mp4" "mp4" "libx264" "aac" none none none
        (some 23) none (some "2M") none none none none).bitrate = some "2M" :=
  ⟨rfl, rfl⟩

/-- C3 amended: constructing an `EncodeSettings` with both CRF and bitrate set
is accepted (the dataclass stores both unchecked); the conflict is resolved at
command-construction time instead, where CRF takes precedence and the bitrate
flag is never emitted alongside it — in `encode_video` whenever CRF is
non-null, in `encode_video_advanced` whenever CRF is positive. -/
theorem encodeSettings_no_construction_validation :
    (∀ (i o fm vc ac : String) (w h : Option Nat) (fps : Option ℚ) (c : Int)
        (pr : Option String) (b : String) (t0 t1 : Option ℚ) (hw ab : Option String),
       (mkEncodeSettings i o fm vc ac w h fps (some c) pr (some b) t0 t1 hw ab).crf
          = some c ∧
       (mkEncodeSettings i o fm vc ac w h fps (some c) pr (some b) t0 t1 hw ab).bitrate
          = some b) ∧
    (∀ (st : EncodeSettings) (c : Int), st.crf = some c →
       Arg.str "-b:v" ∉ encodeQualityArgs st) ∧
    (∀ (st : EncodeSettings) (c : Int), st.crf = some c → 0 < c →
       Arg.str "-b:v" ∉ advQualityArgs st) := by
  refine ⟨fun i o fm vc ac w h fps c pr b t0 t1 hw ab => ⟨rfl, rfl⟩, ?_, ?_⟩
  · intro st c hc
    simp [encodeQualityArgs, hc]
  · intro st c hc hpos
    simp [advQualityArgs, hc, hpos]

/-- Witness for the amended C3 at a concrete spec carrying both CRF 23 and
bitrate "2M". -/
theorem encodeSettings_no_construction_validation_witness :
    (mkEncodeSettings "a.mp4" "out.mp4" "mp4" "libx264" "aac" none none none
        (some 23) none (some "2M") none none none none).crf = some 23 ∧
    (0 : Int) < 23 ∧
    Arg.str "-b:v" ∉ encodeQualityArgs
      (mkEncodeSettings "a.mp4" "out.mp4" "mp4" "libx264" "aac" none none none
        (some 23) none (some "2M") none none none none) ∧
    Arg.str "-b:v" ∉ advQualityArgs
      (mkEncodeSettings "a.mp4" "out.mp4" "mp4" "libx264" "aac" none none none
        (some 23) none (some "2M") none none none none) :=
  ⟨rfl, by decide,
   encodeSettings_no_construction_validation.2.1 _ 23 rfl,
   encodeSettings_no_construction_validation.2.2 _ 23 rfl (by decide)⟩

/-- C4: for a known total duration d > 0, the monitor derives the fraction
`min(elapsed/d, 1)` from each time token (first conjunct ties this to the line
classifier), and over any sequence of time tokens with non-decreasing elapsed
seconds the derived fractions are non-decreasing and never exceed 1. -/
theorem progress_fraction_monotone_clamped (d : ℚ) (hd : 0 < d) :
    (∀ (line : String) (h m sec cc : Nat), timeSearch line = some (h, m, sec, cc) →
       lineClass (some d) line
         = LineClass.progress (progressFraction d (elapsedSeconds h m sec cc)) h m sec cc) ∧
    ∀ ts : List (Nat × Nat × Nat × Nat),
      (ts.map fun t => elapsedSeconds t.1 t.2.1 t.2.2.1 t.2.2.2).Chain' (· ≤ ·) →
      ((ts.map fun t =>
          progressFraction d (elapsedSeconds t.1 t.2.1 t.2.2.1 t.2.2.2)).Chain' (· ≤ ·) ∧
       ∀ q ∈ ts.map fun t =>
          progressFraction d (elapsedSeconds t.1 t.2.1 t.2.2.1 t.2.2.2), q ≤ 1) := by
  constructor
  · intro line h m sec cc htime
    have hne : totalTruthy (some d) = true := by simp [totalTruthy, hd.ne']
    simp [lineClass, htime, hne]
  · intro ts hts
    constructor
    · rw [List.chain'_map] at hts ⊢
      refine hts.imp ?_
      intro a b hab
      unfold progressFraction
      exact min_le_min (by gcongr) le_rfl
    · intro q hq
      simp only [List.mem_map] at hq
      obtain ⟨t, -, rfl⟩ := hq
      exact min_le_right _ _

/-- Witness for C4 at total duration 10 and the token sequence
00:00:05.00, 00:00:20.00 (the second elapsed value exceeds the total). -/
theorem progress_fraction_monotone_clamped_witness :
    (0 : ℚ) < 10 ∧
    ((([(0, 0, 5, 0), (0, 0, 20, 0)] : List (Nat × Nat × Nat × Nat)).map
        fun t => elapsedSeconds t.1 t.2.1 t.2.2.1 t.2.2.2).Chain' (· ≤ ·)) ∧
    (((([(0, 0, 5, 0), (0, 0, 20, 0)] : List (Nat × Nat × Nat × Nat)).map
        fun t => progressFraction 10 (elapsedSeconds t.1 t.2.1 t.2.2.1 t.2.2.2)).Chain'
          (· ≤ ·)) ∧
     ∀ q ∈ ([(0, 0, 5, 0), (0, 0, 20, 0)] : List (Nat × Nat × Nat × Nat)).map
        fun t => progressFraction 10 (elapsedSeconds t.1 t.2.1 t.2.2.1 t.2.2.2), q ≤ 1) :=
  ⟨by norm_num,
   by simp [List.chain'_cons, List.chain'_singleton, elapsedSeconds]; norm_num,
   (progress_fraction_monotone_clamped 10 (by norm_num)).2 _
     (by simp [List.chain'_cons, List.chain'_singleton, elapsedSeconds]; norm_num)⟩

/-- C5 amended: the monitor reports a line through the error heuristic only
when the progress branch does not fire: a line is classified as an
error-signal line iff it contains "error"/"failed" (case-insensitively) AND it
is not the case that it both carries a parsable time token and the total
duration is known and non-zero — the `elif` gives the progress branch
precedence. -/
theorem error_line_classification_requires_no_progress_branch :
    ∀ (total : Option ℚ) (line : String),
      lineClass total line = LineClass.errSignal ↔
        (errHeuristic line = true ∧
         ¬((timeSearch line).isSome = true ∧ totalTruthy total = true)) := by
  intro total line
  unfold lineClass
  cases htm : timeSearch line with
  | none => cases herr : errHeuristic line <;> simp [herr]
  | some tup =>
    obtain ⟨h, m, sec, cc⟩ := tup
    cases htt : totalTruthy total <;> cases herr : errHeuristic line <;> simp [htt, herr]

/-- C5 counterexample: the line `time=00:01:00.00 error` matches the error
heuristic, yet with a known total duration of 10 seconds the monitor takes the
progress branch (reporting fraction 1) and does not classify it as an
error-signal line: classification is not independent of the time token. -/
theorem error_line_with_time_token_takes_progress_branch :
    errHeuristic "time=00:01:00.00 error" = true ∧
    lineClass (some 10) "time=00:01:00.00 error" = LineClass.progress 1 0 1 0 0 := by
  constructor
  · decide
  · have htm : timeSearch "time=00:01:00.00 error" = some (0, 1, 0, 0) := by decide
    have htt : totalTruthy (some (10 : ℚ)) = true := by norm_num [totalTruthy]
    have hfrac : progressFraction 10 (elapsedSeconds 0 1 0 0) = 1 := by
      norm_num [progressFraction, elapsedSeconds, min_def]
    simp [lineClass, htm, htt, hfrac]

/-- Lookup beyond a list prefix: indexing an append at `l₁.length + k` reads
`l₂` at `k`. -/
theorem getElem?_append_at (l₁ l₂ : List Arg) (k : Nat) :
    (l₁ ++ l₂)[l₁.length + k]? = l₂[k]? := by
  rw [List.getElem?_append_right (Nat.le_add_right _ _)]
  simp

/-- C7 counterexample: `encode_video_advanced` emits `-crf` only when
`settings.crf > 0`; a spec with CRF 0 — inside the documented 0-51 range, with
no bitrate and a non-copy codec — produces a command with no `-crf` flag. -/
theorem crf_zero_not_emitted :
    Arg.str "-crf" ∉ encodeAdvCmd "ffmpeg"
      (mkEncodeSettings "a.mp4" "out.mp4" "mp4" "libx264" "aac" none none none
        (some 0) none none none none none none) := by
  decide

/-- C7 amended: for every spec whose CRF is a positive integer up to 51 (with
bitrate unset and a non-copy video codec), the advanced builder emits `-crf`
with that value after the `-c:v` flag; CRF 0 is excluded because the builder
requires `crf > 0`. -/
theorem crf_positive_emitted_after_codec (path : String) (st : EncodeSettings)
    (c : Int) (hc : st.crf = some c) (h1 : 0 < c) (h2 : c ≤ 51)
    (hb : st.bitrate = none) (hcopy : st.video_codec ≠ "copy") :
    ∃ i j, i < j ∧ (encodeAdvCmd path st)[i]? = some (Arg.str "-c:v") ∧
      (encodeAdvCmd path st)[j]? = some (Arg.str "-crf") ∧
      (encodeAdvCmd path st)[j + 1]? = some (Arg.int c) := by
  have hcmd : encodeAdvCmd path st
      = encodeAdvPre path st ++ Arg.str "-c:v" :: Arg.str st.video_codec ::
          Arg.str "-crf" :: Arg.int c :: encodeAdvPost st := by
    simp [encodeAdvCmd, advQualityArgs, hc, h1]
  refine ⟨(encodeAdvPre path st).length, (encodeAdvPre path st).length + 2,
    by omega, ?_, ?_, ?_⟩
  · have h0 : (encodeAdvPre path st).length = (encodeAdvPre path st).length + 0 := by omega
    rw [hcmd, h0, getElem?_append_at]
    simp
  · rw [hcmd, getElem?_append_at]
    simp
  · have h3 : (encodeAdvPre path st).length + 2 + 1 = (encodeAdvPre path st).length + 3 := by
      omega
    rw [hcmd, h3, getElem?_append_at]
    simp

/-- Witness for the amended C7 at a concrete spec with CRF 23. -/
theorem crf_positive_emitted_after_codec_witness :
    (mkEncodeSettings "a.mp4" "out.mp4" "mp4" "libx264" "aac" none none none
        (some 23) none none none none none none).crf = some 23 ∧
    (0 : Int) < 23 ∧ (23 : Int) ≤ 51 ∧
    (mkEncodeSettings "a.mp4" "out.mp4" "mp4" "libx264" "aac" none none none
        (some 23) none none none none none none).bitrate = none ∧
    (mkEncodeSettings "a.mp4" "out.mp4" "mp4" "libx264" "aac" none none none
        (some 23) none none none none none none).video_codec ≠ "copy" ∧
    (∃ i j, i < j ∧
      (encodeAdvCmd "ffmpeg"
        (mkEncodeSettings "a.mp4" "out.mp4" "mp4" "libx264" "aac" none none none
          (some 23) none none none none none none))[i]? = some (Arg.str "-c:v") ∧
      (encodeAdvCmd "ffmpeg"
        (mkEncodeSettings "a.mp4" "out.mp4" "mp4" "libx264" "aac" none none none
          (some 23) none none none none none none))[j]? = some (Arg.str "-crf") ∧
      (encodeAdvCmd "ffmpeg"
        (mkEncodeSettings "a.mp4" "out.mp4" "mp4" "libx264" "aac" none none none
          (some 23) none none none none none none))[j + 1]? = some (Arg.int 23)) :=
  ⟨rfl, by decide, by decide, rfl, by decide,
   crf_positive_emitted_after_codec "ffmpeg" _ 23 rfl (by decide) (by decide) rfl
     (by decide)⟩

/-- Progress values distribute over event-list concatenation. -/
theorem progressValues_append (l₁ l₂ : List Event) :
    progressValues (l₁ ++ l₂) = progressValues l₁ ++ progressValues l₂ := by
  induction l₁ with
  | nil => rfl
  | cons e rest ih => cases e <;> simp [progressValues, ih]

/-- Remapping the progress events of a stage maps exactly the reported
progress values. -/
theorem progressValues_remap (f : ℚ → ℚ) (l : List Event) :
    progressValues (l.map (remapProgress f)) = (progressValues l).map f := by
  induction l with
  | nil => rfl
  | cons e rest ih => cases e <;> simp [progressValues, remapProgress, ih]

/-- C8: in two-stage GIF mode every raw stage-1 fraction f is reported as
`f * 0.5` and every raw stage-2 fraction g as `0.5 + g * 0.5` (stage 2 being
reported only when stage 1 succeeded), so for raw fractions in [0, 1] stage-1
reports lie in the lower half [0, 1/2] and stage-2 reports in the upper half
[1/2, 1]. -/
theorem twostage_progress_remapping (env : AdvEnv) (st : GifSettings)
    (s : MgrState) (p : String) (hp : s.ffmpegPath = some p)
    (hb : s.isProcessing = false) (hraise : env.raiseEarly = none) :
    (progressValues (createGifAdvanced env st s).2.2
      = (progressValues
           (createPalette p s.supportedHwaccels env.stage1 st env.paletteFile).2).map
          stage1Remap
        ++ (if (createPalette p s.supportedHwaccels env.stage1 st env.paletteFile).1 then
              (progressValues
                (createGifWithPalette p s.supportedHwaccels env.stage2 st
                  env.paletteFile).2).map stage2Remap
            else [])) ∧
    (∀ f : ℚ, stage1Remap f = f * (1 / 2) ∧ stage2Remap f = 1 / 2 + f * (1 / 2)) ∧
    (∀ f : ℚ, 0 ≤ f → f ≤ 1 →
      0 ≤ stage1Remap f ∧ stage1Remap f ≤ 1 / 2 ∧
      1 / 2 ≤ stage2Remap f ∧ stage2Remap f ≤ 1) := by
  refine ⟨?_, fun f => ⟨rfl, rfl⟩, ?_⟩
  · simp only [createGifAdvanced, hp, hb, hraise, Bool.false_eq_true, if_false]
    split
    · rename_i hok1
      split
      · simp [hok1, progressValues_append, progressValues_remap, progressValues]
      · simp [hok1, progressValues_append, progressValues_remap, progressValues]
    · rename_i hok1
      simp [hok1, progressValues_append, progressValues_remap, progressValues]
  · intro f h0 h1
    unfold stage1Remap stage2Remap
    refine ⟨by positivity, by linarith, by linarith, by linarith⟩

/-- Witness for C8: a concrete two-stage run whose stage 1 reports the raw
fraction 1/2 (line `time=00:00:01.00` against a 2-second duration). -/
theorem twostage_progress_remapping_witness :
    (⟨some "ffmpeg", [], false, none⟩ : MgrState).ffmpegPath = some "ffmpeg" ∧
    (⟨some "ffmpeg", [], false, none⟩ : MgrState).isProcessing = false ∧
    (⟨none, ⟨none, false, "", 0, ["time=00:00:01.00"], none⟩,
       ⟨none, false, "", 0, [], none⟩, "pal.png"⟩ : AdvEnv).raiseEarly = none ∧
    (progressValues
        (createGifAdvanced
          ⟨none, ⟨none, false, "", 0, ["time=00:00:01.00"], none⟩,
           ⟨none, false, "", 0, [], none⟩, "pal.png"⟩
          ⟨"a.mp4", "out.gif", none, none, none, none, some 2, "medium", true,
           false, "auto", "lanczos", "floyd_steinberg"⟩
          ⟨some "ffmpeg", [], false, none⟩).2.2
      = (progressValues
           (createPalette "ffmpeg" []
             ⟨none, false, "", 0, ["time=00:00:01.00"], none⟩
             ⟨"a.mp4", "out.gif", none, none, none, none, some 2, "medium", true,
              false, "auto", "lanczos", "floyd_steinberg"⟩ "pal.png").2).map
          stage1Remap
        ++ (if (createPalette "ffmpeg" []
                 ⟨none, false, "", 0, ["time=00:00:01.00"], none⟩
                 ⟨"a.mp4", "out.gif", none, none, none, none, some 2, "medium", true,
                  false, "auto", "lanczos", "floyd_steinberg"⟩ "pal.png").1 then
              (progressValues
                (createGifWithPalette "ffmpeg" [] ⟨none, false, "", 0, [], none⟩
                  ⟨"a.mp4", "out.gif", none, none, none, none, some 2, "medium", true,
                   false, "auto", "lanczos", "floyd_steinberg"⟩ "pal.png").2).map
                stage2Remap
            else [])) :=
  ⟨rfl, rfl, rfl,
   (twostage_progress_remapping
     ⟨none, ⟨none, false, "", 0, ["time=00:00:01.00"], none⟩,
      ⟨none, false, "", 0, [], none⟩, "pal.png"⟩
     ⟨"a.mp4", "out.gif", none, none, none, none, some 2, "medium", true, false,
      "auto", "lanczos", "floyd_steinberg"⟩
     ⟨some "ffmpeg", [], false, none⟩ "ffmpeg" rfl rfl rfl).1⟩

/-- GIF job with a start time of 5 seconds and no explicit duration, used to
instantiate the trim-fallback theorems. -/
def trimGif : GifSettings :=
  ⟨"a.mp4", "out.gif", none, none, none, some 5, none, "medium", true, true,
   "auto", "lanczos", "floyd_steinberg"⟩

/-- C9 counterexample: when the probe returns the (falsy) duration 0.0 — a
value `get_video_info` produces when the container metadata lacks a duration —
the stage-1 command carries no `-t` flag at all, although the claim as stated
requires `-t` with value `0 − start_time`. -/
theorem palette_trim_probed_zero_no_duration_flag :
    Arg.str "-t" ∉ createPaletteCmd "ffmpeg" none (some 0) trimGif "pal.png" := by
  decide

/-- C9 amended: for a GIF job with a start time and no explicit duration, an
unknown probed duration (probe returns None) yields a trim segment of just
`-ss start` — no `-t` flag and no failure — and a truthy (non-zero) probed
duration d yields `-ss start -t (d − start)`; a probed duration of exactly 0
is falsy in the source's `if video_duration:` check and is treated like an
unknown duration. -/
theorem palette_trim_fallback (probed : Option ℚ) (st : GifSettings) (t0 : ℚ)
    (hs : st.start_time = some t0) (hd : st.duration = none) :
    (probed = none →
      paletteTrimArgs probed st = [Arg.str "-ss", Arg.hms t0] ∧
      ∀ path hw pf, Arg.str "-ss" ∈ createPaletteCmd path hw probed st pf) ∧
    (∀ d : ℚ, probed = some d → d ≠ 0 →
      paletteTrimArgs probed st
        = [Arg.str "-ss", Arg.hms t0, Arg.str "-t", Arg.num (d - t0)]) := by
  constructor
  · intro hpn
    subst hpn
    constructor
    · simp [paletteTrimArgs, hs, hd]
    · intro path hw pf
      simp [createPaletteCmd, paletteTrimArgs, hs, hd]
  · intro d hpd hdz
    subst hpd
    simp [paletteTrimArgs, hs, hd, hdz]

/-- Witness for the amended C9 at start time 5, with both an unknown probe
and a probed duration of 12. -/
theorem palette_trim_fallback_witness :
    trimGif.start_time = some 5 ∧ trimGif.duration = none ∧
    (paletteTrimArgs none trimGif = [Arg.str "-ss", Arg.hms 5] ∧
      ∀ path hw pf, Arg.str "-ss" ∈ createPaletteCmd path hw none trimGif pf) ∧
    (12 : ℚ) ≠ 0 ∧
    paletteTrimArgs (some 12) trimGif
      = [Arg.str "-ss", Arg.hms 5, Arg.str "-t", Arg.num (12 - 5)] :=
  ⟨rfl, rfl,
   (palette_trim_fallback none trimGif 5 rfl rfl).1 rfl,
   by norm_num,
   (palette_trim_fallback (some 12) trimGif 5 rfl rfl).2 12 rfl (by norm_num)⟩

end FGK
